import Mathlib

/-!
Shallow embedding of the ASP.NET Core Module V2 out-of-process worker pool
manager, translated from
`src/Servers/IIS/AspNetCoreModuleV2/OutOfProcessRequestHandler/processmanager.cpp`
and `processmanager.h`.

The manager's mutable fields become a `PMState` record; each member function
becomes a state-passing Lean function.  Calls on the external
`SERVER_PROCESS` collaborator (`StopProcess`, `SendSignal`,
`DereferenceServerProcess`) and the diagnostic event-log call are recorded in
an `PMAction` trace so that theorems can speak about which operation the code
applied to which worker.  Machine arithmetic that matters is made explicit:
the round-robin cursor is a 32-bit wrapping counter (`std::atomic<int>`
converted to `DWORD` by the `%` against `m_dwProcessesPerApplication`), the
rapid-fail tick difference is unsigned 64-bit subtraction, and the rapid-fail
counter is a two's-complement `LONG`.  External nondeterminism (child-process
creation outcomes, `WSAStartup`, `CreateFileW`, `GetTickCount64`) is passed in
as explicit oracle arguments.
-/

def UINT32_MOD : Nat := 2 ^ 32

def UINT64_MOD : Nat := 2 ^ 64

def ONE_MINUTE_IN_MILLISECONDS : Nat := 60000

/-- Unsigned 64-bit subtraction `a - b` with wraparound, as computed on
`uint64_t` in `RapidFailsPerMinuteExceeded`. -/
def sub64 (a b : Nat) : Nat :=
  (a % UINT64_MOD + (UINT64_MOD - b % UINT64_MOD)) % UINT64_MOD

/-- Two's-complement wraparound of a 32-bit signed `LONG`. -/
def wrap32 (x : Int) : Int :=
  (x + 2 ^ 31) % 2 ^ 32 - 2 ^ 31

/-- The observable face of the external `SERVER_PROCESS` collaborator during
one manager operation: its stable identity (`GetPort()`) and what `IsReady()`
reports. -/
structure SERVER_PROCESS where
  port : Nat
  ready : Bool
deriving DecidableEq

/-- Calls the manager makes on worker handles and on the event log, recorded
in order as a trace. -/
inductive PMAction where
  | stopProcess (port : Nat)
  | sendSignal (port : Nat)
  | dereference (port : Nat)
  | eventRapidFailExceeded (limit : Int)
deriving DecidableEq

/-- The state of `m_hNULHandle`: `nullptr`, `INVALID_HANDLE_VALUE` (what
`CreateFileW` returns on failure), or a valid handle. -/
inductive HandleState where
  | null
  | invalid
  | valid
deriving DecidableEq

/-- The mutable fields of `PROCESS_MANAGER` (including the class-static
`isWSAStartupDone`).  `m_dwRouteToProcessIndex` is modelled as the total
number of `fetch_add(1)` calls performed; the stored 32-bit value is that
count modulo `2^32`.  `m_ppServerProcessList` is `none` while the array
pointer is null. -/
structure PMState where
  isStopping : Bool
  serverProcessListReady : Bool
  m_dwProcessesPerApplication : Nat
  m_dwRouteToProcessIndex : Nat
  m_ppServerProcessList : Option (List (Option SERVER_PROCESS))
  m_cRapidFailCount : Int
  m_rapidFailTickStart : Nat
  isWSAStartupDone : Bool
  m_hNULHandle : HandleState
deriving DecidableEq

/-- The manager state as built by the `PROCESS_MANAGER` constructor and the
in-class member initializers (`m_rapidFailTickStart` has no initializer; it
is a parameter here). -/
def initialPMState (tickStart : Nat) : PMState :=
  { isStopping := false
    serverProcessListReady := false
    m_dwProcessesPerApplication := 1
    m_dwRouteToProcessIndex := 0
    m_ppServerProcessList := none
    m_cRapidFailCount := 0
    m_rapidFailTickStart := tickStart
    isWSAStartupDone := false
    m_hNULHandle := .null }

/-- The configuration fields of `REQUESTHANDLER_CONFIG` that the manager's
own logic reads.  All other fields are only forwarded to the child process
and are absorbed by the creation oracle. -/
structure REQUESTHANDLER_CONFIG where
  processesPerApplication : Nat
  rapidFailsPerMinute : Int
deriving DecidableEq

/-- Oracle describing what happens when `GetProcess` constructs a fresh
`SERVER_PROCESS` and calls `Initialize` and `StartProcess` on it: either one
of the two calls fails with an HRESULT, or the process starts and afterwards
reports the embedded identity and readiness. -/
inductive CreationOutcome where
  | initFailed (hr : Int)
  | startFailed (hr : Int)
  | started (p : SERVER_PROCESS)
deriving DecidableEq

/-- The outcome of one `GetProcess` call.  `okNullOut` marks the (unreachable)
fall-through to line 195 with an empty slot, and `ubNullSelected` marks the
(unreachable) null dereference of `pSelectedServerProcess` at line 187 when
the slot is still occupied at line 162. -/
inductive GPResult where
  | ok (p : SERVER_PROCESS)
  | appExiting
  | serverDisabled
  | createFailed
  | hrFailure (hr : Int)
  | okNullOut
  | ubNullSelected
deriving DecidableEq

/-- Read of `m_ppServerProcessList[i]`; a C array access, modelled as a total
lookup that yields `none` out of bounds (in-boundedness is proved separately). -/
def getSlot : List (Option SERVER_PROCESS) → Nat → Option SERVER_PROCESS
  | [], _ => none
  | s :: _, 0 => s
  | _ :: rest, n + 1 => getSlot rest n

/-- Write of `m_ppServerProcessList[i] = v`. -/
def setSlot : List (Option SERVER_PROCESS) → Nat → Option SERVER_PROCESS →
    List (Option SERVER_PROCESS)
  | [], _, _ => []
  | _ :: rest, 0, v => v :: rest
  | s :: rest, n + 1, v => s :: setSlot rest n v

/-- `m_ppServerProcessList[i]` through the possibly-null array pointer. -/
def getSlotO (slots : Option (List (Option SERVER_PROCESS))) (i : Nat) :
    Option SERVER_PROCESS :=
  match slots with
  | none => none
  | some l => getSlot l i

/-- `processIndex = m_dwRouteToProcessIndex.fetch_add(1) % m_dwProcessesPerApplication`:
the previous `int` value of the cursor converted to `DWORD` (the unsigned
operand of `%`), then reduced modulo the slot count. -/
def slotIndexOf (cursor k : Nat) : Nat :=
  cursor % UINT32_MOD % k

namespace PROCESS_MANAGER

/-- `IncrementRapidFailCount` (`m_cRapidFailCount++` on an `atomic_long`). -/
def IncrementRapidFailCount (st : PMState) : PMState :=
  { st with m_cRapidFailCount := wrap32 (st.m_cRapidFailCount + 1) }

/-- `RapidFailsPerMinuteExceeded`, lines 245-257: given the current count,
window start, configured limit and `GetTickCount64()` value, returns the
verdict together with the updated count and window start. -/
def RapidFailsPerMinuteExceeded (count : Int) (tickStart : Nat)
    (dwRapidFailsPerMinute : Int) (now : Nat) : Bool × Int × Nat :=
  if ONE_MINUTE_IN_MILLISECONDS ≤ sub64 now tickStart then
    (decide ((0 : Int) > dwRapidFailsPerMinute), 0, now)
  else
    (decide (count > dwRapidFailsPerMinute), count, tickStart)

/-- The loop body of `ShutdownProcessNoLock` over the slot list: a slot whose
worker's port equals the target's port is stopped, dereferenced and cleared;
every other slot is kept. -/
def shutdownProcessWalk (targetPort : Nat) :
    List (Option SERVER_PROCESS) → List (Option SERVER_PROCESS) × List PMAction
  | [] => ([], [])
  | none :: rest =>
    let r := shutdownProcessWalk targetPort rest
    (none :: r.1, r.2)
  | some p :: rest =>
    let r := shutdownProcessWalk targetPort rest
    if p.port = targetPort then
      (none :: r.1, PMAction.stopProcess p.port :: PMAction.dereference p.port :: r.2)
    else
      (some p :: r.1, r.2)

/-- `ShutdownProcessNoLock`, lines 259-273. -/
def ShutdownProcessNoLock (st : PMState) (pServerProcess : SERVER_PROCESS) :
    PMState × List PMAction :=
  match st.m_ppServerProcessList with
  | none => (st, [])
  | some l =>
    let r := shutdownProcessWalk pServerProcess.port l
    ({ st with m_ppServerProcessList := some r.1 }, r.2)

/-- The loop body of `SendShutdownSignal`, lines 203-212: every occupied slot
is sent the shutdown signal, dereferenced and cleared. -/
def sendShutdownSignalWalk :
    List (Option SERVER_PROCESS) → List (Option SERVER_PROCESS) × List PMAction
  | [] => ([], [])
  | none :: rest =>
    let r := sendShutdownSignalWalk rest
    (none :: r.1, r.2)
  | some p :: rest =>
    let r := sendShutdownSignalWalk rest
    (none :: r.1, PMAction.sendSignal p.port :: PMAction.dereference p.port :: r.2)

/-- `SendShutdownSignal`, lines 199-215. -/
def SendShutdownSignal (st : PMState) : PMState × List PMAction :=
  match st.m_ppServerProcessList with
  | none => (st, [])
  | some l =>
    let r := sendShutdownSignalWalk l
    ({ st with m_ppServerProcessList := some r.1 }, r.2)

/-- The loop body of `ShutdownAllProcessesNoLock`, lines 277-287: note that
the call applied to each occupied worker is `SendSignal()`, not
`StopProcess()`. -/
def shutdownAllWalk :
    List (Option SERVER_PROCESS) → List (Option SERVER_PROCESS) × List PMAction
  | [] => ([], [])
  | none :: rest =>
    let r := shutdownAllWalk rest
    (none :: r.1, r.2)
  | some p :: rest =>
    let r := shutdownAllWalk rest
    (none :: r.1, PMAction.sendSignal p.port :: PMAction.dereference p.port :: r.2)

/-- `ShutdownAllProcessesNoLock`, lines 275-288. -/
def ShutdownAllProcessesNoLock (st : PMState) : PMState × List PMAction :=
  match st.m_ppServerProcessList with
  | none => (st, [])
  | some l =>
    let r := shutdownAllWalk l
    ({ st with m_ppServerProcessList := some r.1 }, r.2)

/-- `ShutdownProcess`, lines 217-222 (lock acquisition around the NoLock body). -/
def ShutdownProcess (st : PMState) (pServerProcess : SERVER_PROCESS) :
    PMState × List PMAction :=
  ShutdownProcessNoLock st pServerProcess

/-- `ShutdownAllProcesses`, lines 224-229. -/
def ShutdownAllProcesses (st : PMState) : PMState × List PMAction :=
  ShutdownAllProcessesNoLock st

/-- `Shutdown`, lines 231-237: only the caller whose `exchange(true)` observes
`false` performs the shutdown walk. -/
def Shutdown (st : PMState) : PMState × List PMAction :=
  if st.isStopping then (st, [])
  else ShutdownAllProcesses { st with isStopping := true }

/-- The lazy slot-table allocation of `GetProcess`, lines 90-106: on the first
call, size the table from `pConfig->QueryProcessesPerApplication()`, fill it
with null slots and mark it ready. -/
def ensureServerProcessList (st : PMState) (pConfig : REQUESTHANDLER_CONFIG) :
    PMState :=
  if st.serverProcessListReady then st
  else
    { st with
        m_dwProcessesPerApplication := pConfig.processesPerApplication
        m_ppServerProcessList :=
          some (List.replicate pConfig.processesPerApplication none)
        serverProcessListReady := true }

/-- Line 195: `*ppServerProcess = m_ppServerProcessList[dwProcessIndex];
return S_OK;` (reached by falling through the exclusive block or by skipping
it). -/
def line195 (st : PMState) (idx : Nat) (tr : List PMAction) :
    PMState × GPResult × List PMAction :=
  match getSlotO st.m_ppServerProcessList idx with
  | some p => (st, .ok p, tr)
  | none => (st, .okNullOut, tr)

/-- Lines 162-195 of `GetProcess`: create, start and health-check the new
worker when the slot is empty, then store it and fall through to line 195.
When the slot is still occupied, `pSelectedServerProcess` is null at
line 187. -/
def createSection (st : PMState) (creation : CreationOutcome) (idx : Nat)
    (tr : List PMAction) : PMState × GPResult × List PMAction :=
  match getSlotO st.m_ppServerProcessList idx with
  | none =>
    match creation with
    | .initFailed hr => (st, .hrFailure hr, tr)
    | .startFailed hr => (st, .hrFailure hr, tr)
    | .started p =>
      if p.ready then
        line195
          { st with
              m_ppServerProcessList :=
                some (setSlot (st.m_ppServerProcessList.getD []) idx (some p)) }
          idx tr
      else (st, .createFailed, tr)
  | some _ => (st, .ubNullSelected, tr)

/-- Lines 149-195 of `GetProcess`: the rapid-fail circuit breaker followed by
the creation section. -/
def rapidFailGate (st : PMState) (pConfig : REQUESTHANDLER_CONFIG)
    (creation : CreationOutcome) (now : Nat) (idx : Nat) (tr : List PMAction) :
    PMState × GPResult × List PMAction :=
  let r := RapidFailsPerMinuteExceeded st.m_cRapidFailCount
      st.m_rapidFailTickStart pConfig.rapidFailsPerMinute now
  let st' := { st with m_cRapidFailCount := r.2.1, m_rapidFailTickStart := r.2.2 }
  if r.1 then
    (st', .serverDisabled,
      tr ++ [PMAction.eventRapidFailExceeded pConfig.rapidFailsPerMinute])
  else
    createSection st' creation idx tr

/-- Lines 128-195 of `GetProcess`: the exclusive-lock section.  A still
occupied, not-ready slot is first cleared through `ShutdownProcessNoLock`; an
occupied ready slot is returned as-is. -/
def exclusiveBlock (st : PMState) (pConfig : REQUESTHANDLER_CONFIG)
    (creation : CreationOutcome) (now : Nat) (idx : Nat) :
    PMState × GPResult × List PMAction :=
  match getSlotO st.m_ppServerProcessList idx with
  | some p =>
    if p.ready then (st, .ok p, [])
    else
      let r := ShutdownProcessNoLock st p
      rapidFailGate r.1 pConfig creation now idx r.2
  | none => rapidFailGate st pConfig creation now idx []

/-- The guard at line 125: the exclusive block runs only when the slot is
empty or its worker is not ready. -/
def slotMissingOrNotReady (st : PMState) (idx : Nat) : Bool :=
  match getSlotO st.m_ppServerProcessList idx with
  | none => true
  | some p => !p.ready

/-- `GetProcess`, lines 76-197.  `creation` is the oracle for the
child-process construction attempted inside the call and `now` is the
`GetTickCount64()` value observed by the rapid-fail check. -/
def GetProcess (st0 : PMState) (pConfig : REQUESTHANDLER_CONFIG)
    (fWebsocketSupported : Bool) (creation : CreationOutcome) (now : Nat) :
    PMState × GPResult × List PMAction :=
  if st0.isStopping then (st0, .appExiting, [])
  else
    let st1 := ensureServerProcessList st0 pConfig
    let idx := slotIndexOf st1.m_dwRouteToProcessIndex st1.m_dwProcessesPerApplication
    let st := { st1 with m_dwRouteToProcessIndex := st1.m_dwRouteToProcessIndex + 1 }
    match getSlotO st.m_ppServerProcessList idx with
    | some p =>
      if p.ready then (st, .ok p, [])
      else if slotMissingOrNotReady st idx then
        exclusiveBlock st pConfig creation now idx
      else line195 st idx []
    | none =>
      if slotMissingOrNotReady st idx then
        exclusiveBlock st pConfig creation now idx
      else line195 st idx []

/-- The result returned by one `Initialize` call. -/
inductive InitResult where
  | ok
  | wsaError (code : Int)
  | lastError
deriving DecidableEq

/-- Lines 40-60 of `Initialize`: record the rapid-fail window start, then
lazily open the NUL discard handle.  The returned `Bool` records whether
`CreateFileW` was invoked on this call. -/
def InitializeTail (st : PMState) (createFileSucceeds : Bool) (now : Nat) :
    PMState × Bool × InitResult :=
  let st' := { st with m_rapidFailTickStart := now }
  if st'.m_hNULHandle = HandleState.null then
    if createFileSucceeds then
      ({ st' with m_hNULHandle := HandleState.valid }, true, .ok)
    else
      ({ st' with m_hNULHandle := HandleState.invalid }, true, .lastError)
  else (st', false, .ok)

/-- `Initialize`, lines 21-61.  `wsaResult` is the `WSAStartup` return value
(`0` on success), `createFileSucceeds` tells whether `CreateFileW` would
yield a valid handle, and `now` is `GetTickCount64()`. -/
def Initialize (st : PMState) (wsaResult : Int) (createFileSucceeds : Bool)
    (now : Nat) : PMState × Bool × InitResult :=
  if st.isWSAStartupDone then InitializeTail st createFileSucceeds now
  else if wsaResult ≠ 0 then (st, false, .wsaError wsaResult)
  else InitializeTail { st with isWSAStartupDone := true } createFileSucceeds now

end PROCESS_MANAGER

/-- The per-call inputs of `GetProcess`. -/
structure GPInput where
  pConfig : REQUESTHANDLER_CONFIG
  fWebsocketSupported : Bool
  creation : CreationOutcome
  now : Nat

/-- A sequence of `GetProcess` calls, collecting each call's result. -/
def GPRun : PMState → List GPInput → PMState × List GPResult
  | st, [] => (st, [])
  | st, i :: rest =>
    let r := PROCESS_MANAGER.GetProcess st i.pConfig i.fWebsocketSupported
        i.creation i.now
    let rr := GPRun r.1 rest
    (rr.1, r.2.1 :: rr.2)

/-- The state transformer of one `GetProcess` call with fixed inputs. -/
def gpStep (i : GPInput) (st : PMState) : PMState :=
  (PROCESS_MANAGER.GetProcess st i.pConfig i.fWebsocketSupported i.creation i.now).1

/-- A sequence of `Initialize` calls, counting how many of them invoked
`CreateFileW`. -/
def InitializeRun : PMState → List (Int × Bool × Nat) → PMState × Nat
  | st, [] => (st, 0)
  | st, (w, c, n) :: rest =>
    let r := PROCESS_MANAGER.Initialize st w c n
    let rr := InitializeRun r.1 rest
    (rr.1, (if r.2.1 then 1 else 0) + rr.2)

/-- Whether a slot holds a worker whose identity (`GetPort()`) equals the
given port. -/
def slotMatchesPort : Option SERVER_PROCESS → Nat → Bool
  | none, _ => false
  | some p, t => p.port = t

/-- Whether a slot holds a worker that reports ready. -/
def slotIsReady : Option SERVER_PROCESS → Bool
  | none => false
  | some p => p.ready

/-- Every slot of the table holds a ready worker. -/
def allSlotsReady (l : List (Option SERVER_PROCESS)) : Bool :=
  l.all slotIsReady

/-- The length of the slot table (0 while the array pointer is null). -/
def slotsLen (st : PMState) : Nat :=
  (st.m_ppServerProcessList.getD []).length

/-- A manager state whose slot table is already allocated, for building
concrete scenarios: `k` slots holding `l`, cursor at `cur`, rapid-fail
counter `c` with window start `ts`. -/
def mkReadyState (l : List (Option SERVER_PROCESS)) (cur : Nat) (c : Int)
    (ts : Nat) : PMState :=
  { isStopping := false
    serverProcessListReady := true
    m_dwProcessesPerApplication := l.length
    m_dwRouteToProcessIndex := cur
    m_ppServerProcessList := some l
    m_cRapidFailCount := c
    m_rapidFailTickStart := ts
    isWSAStartupDone := true
    m_hNULHandle := .valid }

/-! ### Basic lemmas about slot-table reads and writes -/

theorem getSlot_replicate (n i : Nat) :
    getSlot (List.replicate n none) i = none := by
  induction n generalizing i with
  | zero => rfl
  | succ m ih =>
    cases i with
    | zero => rfl
    | succ j => simpa [List.replicate_succ, getSlot] using ih j

theorem setSlot_length (l : List (Option SERVER_PROCESS)) (i : Nat)
    (v : Option SERVER_PROCESS) : (setSlot l i v).length = l.length := by
  induction l generalizing i with
  | nil => rfl
  | cons s rest ih =>
    cases i with
    | zero => rfl
    | succ j => simp [setSlot, ih j]

theorem getSlot_setSlot_self (l : List (Option SERVER_PROCESS)) (i : Nat)
    (v : Option SERVER_PROCESS) (h : i < l.length) :
    getSlot (setSlot l i v) i = v := by
  induction l generalizing i with
  | nil => simp at h
  | cons s rest ih =>
    cases i with
    | zero => rfl
    | succ j =>
      simp only [setSlot, getSlot]
      exact ih j (by simpa using h)

theorem allSlotsReady_getSlot (l : List (Option SERVER_PROCESS))
    (h : allSlotsReady l = true) (i : Nat) (hi : i < l.length) :
    ∃ p, getSlot l i = some p ∧ p.ready = true := by
  induction l generalizing i with
  | nil => simp at hi
  | cons s rest ih =>
    rw [allSlotsReady, List.all_cons, Bool.and_eq_true] at h
    cases i with
    | zero =>
      cases s with
      | none => simp [slotIsReady] at h
      | some p => exact ⟨p, rfl, by simpa [slotIsReady] using h.1⟩
    | succ j =>
      exact ih h.2 j (by simpa using hi)

/-! ### Lemmas about the shutdown walks -/

theorem shutdownProcessWalk_length (t : Nat) (l : List (Option SERVER_PROCESS)) :
    (PROCESS_MANAGER.shutdownProcessWalk t l).1.length = l.length := by
  induction l with
  | nil => rfl
  | cons s rest ih =>
    cases s with
    | none => simp [PROCESS_MANAGER.shutdownProcessWalk, ih]
    | some p =>
      by_cases hp : p.port = t <;>
        simp [PROCESS_MANAGER.shutdownProcessWalk, hp, ih]

theorem getSlot_shutdownProcessWalk (t : Nat) (l : List (Option SERVER_PROCESS))
    (i : Nat) :
    getSlot (PROCESS_MANAGER.shutdownProcessWalk t l).1 i =
      if slotMatchesPort (getSlot l i) t then none else getSlot l i := by
  induction l generalizing i with
  | nil => simp [PROCESS_MANAGER.shutdownProcessWalk, getSlot, slotMatchesPort]
  | cons s rest ih =>
    cases s with
    | none =>
      cases i with
      | zero => simp [PROCESS_MANAGER.shutdownProcessWalk, getSlot, slotMatchesPort]
      | succ j => simpa [PROCESS_MANAGER.shutdownProcessWalk, getSlot] using ih j
    | some p =>
      by_cases hp : p.port = t
      · cases i with
        | zero => simp [PROCESS_MANAGER.shutdownProcessWalk, getSlot, slotMatchesPort, hp]
        | succ j => simpa [PROCESS_MANAGER.shutdownProcessWalk, hp, getSlot] using ih j
      · cases i with
        | zero => simp [PROCESS_MANAGER.shutdownProcessWalk, getSlot, slotMatchesPort, hp]
        | succ j => simpa [PROCESS_MANAGER.shutdownProcessWalk, hp, getSlot] using ih j

theorem shutdownProcessWalk_trace_mem (t : Nat) (l : List (Option SERVER_PROCESS))
    (i : Nat) (p : SERVER_PROCESS) (h : getSlot l i = some p) (hp : p.port = t) :
    PMAction.stopProcess p.port ∈ (PROCESS_MANAGER.shutdownProcessWalk t l).2 ∧
    PMAction.dereference p.port ∈ (PROCESS_MANAGER.shutdownProcessWalk t l).2 := by
  induction l generalizing i with
  | nil => simp [getSlot] at h
  | cons s rest ih =>
    cases i with
    | zero =>
      cases s with
      | none => simp [getSlot] at h
      | some q =>
        have hq : q = p := by simpa [getSlot] using h
        subst hq
        simp [PROCESS_MANAGER.shutdownProcessWalk, hp]
    | succ j =>
      have hrest := ih j (by simpa [getSlot] using h)
      cases s with
      | none => simpa [PROCESS_MANAGER.shutdownProcessWalk] using hrest
      | some q =>
        by_cases hq : q.port = t <;>
          simp [PROCESS_MANAGER.shutdownProcessWalk, hq, hrest.1, hrest.2]

theorem shutdownProcessWalk_no_match (t : Nat) (l : List (Option SERVER_PROCESS))
    (h : ∀ i, slotMatchesPort (getSlot l i) t = false) :
    PROCESS_MANAGER.shutdownProcessWalk t l = (l, []) := by
  induction l with
  | nil => rfl
  | cons s rest ih =>
    have hrest : ∀ i, slotMatchesPort (getSlot rest i) t = false := fun i => h (i + 1)
    cases s with
    | none => simp [PROCESS_MANAGER.shutdownProcessWalk, ih hrest]
    | some p =>
      have hp : ¬ p.port = t := by
        have h0 := h 0
        simpa [getSlot, slotMatchesPort] using h0
      simp [PROCESS_MANAGER.shutdownProcessWalk, hp, ih hrest]

theorem sendShutdownSignalWalk_fst (l : List (Option SERVER_PROCESS)) :
    (PROCESS_MANAGER.sendShutdownSignalWalk l).1 = List.replicate l.length none := by
  induction l with
  | nil => rfl
  | cons s rest ih =>
    cases s <;> simp [PROCESS_MANAGER.sendShutdownSignalWalk, ih, List.replicate_succ]

theorem shutdownAllWalk_eq_signalWalk (l : List (Option SERVER_PROCESS)) :
    PROCESS_MANAGER.shutdownAllWalk l = PROCESS_MANAGER.sendShutdownSignalWalk l := by
  induction l with
  | nil => rfl
  | cons s rest ih =>
    cases s <;>
      simp [PROCESS_MANAGER.shutdownAllWalk, PROCESS_MANAGER.sendShutdownSignalWalk, ih]

/-! ### Simple facts about `GetProcess` and `Shutdown` -/

theorem getProcess_stopping (st : PMState) (cfg : REQUESTHANDLER_CONFIG)
    (ws : Bool) (cr : CreationOutcome) (now : Nat) (h : st.isStopping = true) :
    PROCESS_MANAGER.GetProcess st cfg ws cr now = (st, .appExiting, []) := by
  simp [PROCESS_MANAGER.GetProcess, h]

theorem shutdown_isStopping (st : PMState) :
    (PROCESS_MANAGER.Shutdown st).1.isStopping = true := by
  by_cases h : st.isStopping
  · simp [PROCESS_MANAGER.Shutdown, h]
  · simp only [PROCESS_MANAGER.Shutdown, h, if_neg, Bool.false_eq_true,
      if_false, PROCESS_MANAGER.ShutdownAllProcesses,
      PROCESS_MANAGER.ShutdownAllProcessesNoLock]
    cases hl : st.m_ppServerProcessList <;> simp [hl]

theorem gprun_stopping (st : PMState) (h : st.isStopping = true)
    (inputs : List GPInput) :
    GPRun st inputs = (st, inputs.map fun _ => GPResult.appExiting) := by
  induction inputs with
  | nil => rfl
  | cons i rest ih => simp [GPRun, PROCESS_MANAGER.GetProcess, h, ih]

/-- C5: for every value of the round-robin cursor (including values past the
32-bit wrap) and a positive slot count, the slot index `GetProcess` computes
is strictly below the slot count, so the slot-array accesses it performs are
in bounds. -/
theorem c5_slot_index_in_bounds (cursor k : Nat) (hk : 0 < k) :
    slotIndexOf cursor k < k :=
  Nat.mod_lt _ hk

theorem c5_slot_index_in_bounds_witness :
    0 < 3 ∧ slotIndexOf (2 ^ 32 + 5) 3 < 3 :=
  ⟨by decide, c5_slot_index_in_bounds (2 ^ 32 + 5) 3 (by decide)⟩

/-- C3: if the stopping flag is set, `GetProcess` fails with the
"application exiting" error, touching nothing; after `Shutdown()` the
stopping flag is set, so every subsequent `GetProcess` call fails with
"application exiting", leaves the state untouched and creates no worker. -/
theorem c3_stopping_rejects_getprocess (st : PMState)
    (cfg : REQUESTHANDLER_CONFIG) (ws : Bool) (cr : CreationOutcome) (now : Nat) :
    (st.isStopping = true →
      PROCESS_MANAGER.GetProcess st cfg ws cr now = (st, .appExiting, [])) ∧
    (PROCESS_MANAGER.Shutdown st).1.isStopping = true ∧
    (∀ inputs : List GPInput,
      GPRun (PROCESS_MANAGER.Shutdown st).1 inputs =
        ((PROCESS_MANAGER.Shutdown st).1, inputs.map fun _ => GPResult.appExiting)) :=
  ⟨getProcess_stopping st cfg ws cr now,
   shutdown_isStopping st,
   fun inputs => gprun_stopping _ (shutdown_isStopping st) inputs⟩

theorem c3_stopping_rejects_getprocess_witness :
    PROCESS_MANAGER.GetProcess { initialPMState 0 with isStopping := true }
        ⟨1, 10⟩ false (CreationOutcome.started ⟨1, true⟩) 0 =
      ({ initialPMState 0 with isStopping := true }, GPResult.appExiting, []) :=
  (c3_stopping_rejects_getprocess { initialPMState 0 with isStopping := true }
      ⟨1, 10⟩ false (CreationOutcome.started ⟨1, true⟩) 0).1 rfl

/-! ### C7: frame property of ShutdownProcess -/

/-- C7: `ShutdownProcess(handle)` stops, dereferences and empties exactly the
slots whose worker's port equals the handle's port, leaves every other slot
and every other manager field unchanged, and is the identity (with an empty
trace) when no slot matches. -/
theorem c7_shutdown_process_frame (st : PMState) (target : SERVER_PROCESS) :
    (∀ i, getSlotO (PROCESS_MANAGER.ShutdownProcess st target).1.m_ppServerProcessList i =
        if slotMatchesPort (getSlotO st.m_ppServerProcessList i) target.port then none
        else getSlotO st.m_ppServerProcessList i) ∧
    (∀ i p, getSlotO st.m_ppServerProcessList i = some p → p.port = target.port →
        PMAction.stopProcess p.port ∈ (PROCESS_MANAGER.ShutdownProcess st target).2 ∧
        PMAction.dereference p.port ∈ (PROCESS_MANAGER.ShutdownProcess st target).2) ∧
    ((PROCESS_MANAGER.ShutdownProcess st target).1.isStopping = st.isStopping ∧
     (PROCESS_MANAGER.ShutdownProcess st target).1.serverProcessListReady = st.serverProcessListReady ∧
     (PROCESS_MANAGER.ShutdownProcess st target).1.m_dwProcessesPerApplication = st.m_dwProcessesPerApplication ∧
     (PROCESS_MANAGER.ShutdownProcess st target).1.m_dwRouteToProcessIndex = st.m_dwRouteToProcessIndex ∧
     (PROCESS_MANAGER.ShutdownProcess st target).1.m_cRapidFailCount = st.m_cRapidFailCount ∧
     (PROCESS_MANAGER.ShutdownProcess st target).1.m_rapidFailTickStart = st.m_rapidFailTickStart) ∧
    ((∀ i, slotMatchesPort (getSlotO st.m_ppServerProcessList i) target.port = false) →
        PROCESS_MANAGER.ShutdownProcess st target = (st, [])) := by
  rcases st with ⟨stop, ready, ppa, cur, list, cnt, ts, wsa, hn⟩
  cases list with
  | none =>
    refine ⟨fun i => by simp [PROCESS_MANAGER.ShutdownProcess,
        PROCESS_MANAGER.ShutdownProcessNoLock, getSlotO, slotMatchesPort],
      fun i p h => by simp [getSlotO] at h, ?_, fun _ => rfl⟩
    simp [PROCESS_MANAGER.ShutdownProcess, PROCESS_MANAGER.ShutdownProcessNoLock]
  | some l =>
    refine ⟨fun i => ?_, fun i p h hp => ?_, ?_, fun hno => ?_⟩
    · simpa [PROCESS_MANAGER.ShutdownProcess, PROCESS_MANAGER.ShutdownProcessNoLock,
        getSlotO] using getSlot_shutdownProcessWalk target.port l i
    · have h' : getSlot l i = some p := by simpa [getSlotO] using h
      simpa [PROCESS_MANAGER.ShutdownProcess, PROCESS_MANAGER.ShutdownProcessNoLock,
        getSlotO] using shutdownProcessWalk_trace_mem target.port l i p h' hp
    · simp [PROCESS_MANAGER.ShutdownProcess, PROCESS_MANAGER.ShutdownProcessNoLock]
    · have hno' : ∀ i, slotMatchesPort (getSlot l i) target.port = false := by
        intro i
        simpa [getSlotO] using hno i
      simp [PROCESS_MANAGER.ShutdownProcess, PROCESS_MANAGER.ShutdownProcessNoLock,
        shutdownProcessWalk_no_match target.port l hno']

theorem c7_shutdown_process_frame_witness :
    getSlotO (PROCESS_MANAGER.ShutdownProcess
        (mkReadyState [some ⟨7, true⟩, some ⟨9, true⟩] 0 0 0)
        ⟨7, false⟩).1.m_ppServerProcessList 1 = some ⟨9, true⟩ ∧
    PMAction.stopProcess 7 ∈ (PROCESS_MANAGER.ShutdownProcess
        (mkReadyState [some ⟨7, true⟩, some ⟨9, true⟩] 0 0 0) ⟨7, false⟩).2 ∧
    PROCESS_MANAGER.ShutdownProcess
        (mkReadyState [some ⟨7, true⟩, some ⟨9, true⟩] 0 0 0) ⟨11, false⟩ =
      (mkReadyState [some ⟨7, true⟩, some ⟨9, true⟩] 0 0 0, []) := by
  refine ⟨?_, ?_, ?_⟩
  · have := (c7_shutdown_process_frame
      (mkReadyState [some ⟨7, true⟩, some ⟨9, true⟩] 0 0 0) ⟨7, false⟩).1 1
    simpa using this
  · exact ((c7_shutdown_process_frame
      (mkReadyState [some ⟨7, true⟩, some ⟨9, true⟩] 0 0 0) ⟨7, false⟩).2.1 0
      ⟨7, true⟩ rfl rfl).1
  · exact (c7_shutdown_process_frame
      (mkReadyState [some ⟨7, true⟩, some ⟨9, true⟩] 0 0 0) ⟨11, false⟩).2.2.2
      (fun i => match i with | 0 => rfl | 1 => rfl | _ + 2 => rfl)

/-! ### C8: idempotence of Shutdown -/

/-- C8: `Shutdown` is idempotent: a call that finds the stopping flag already
set is a no-op with an empty trace (so only the 0-to-1 transition performs
the slot walk), a second `Shutdown` after any `Shutdown` is such a no-op,
and after the transition call every slot of the table is empty. -/
theorem c8_shutdown_idempotent (st : PMState) :
    (st.isStopping = true → PROCESS_MANAGER.Shutdown st = (st, [])) ∧
    PROCESS_MANAGER.Shutdown (PROCESS_MANAGER.Shutdown st).1 =
      ((PROCESS_MANAGER.Shutdown st).1, []) ∧
    (st.isStopping = false →
      ∀ i, getSlotO (PROCESS_MANAGER.Shutdown st).1.m_ppServerProcessList i = none) := by
  refine ⟨fun h => by simp [PROCESS_MANAGER.Shutdown, h], ?_, fun h i => ?_⟩
  · have h1 := shutdown_isStopping st
    generalize (PROCESS_MANAGER.Shutdown st).1 = st1 at h1 ⊢
    simp [PROCESS_MANAGER.Shutdown, h1]
  · rcases st with ⟨stop, ready, ppa, cur, list, cnt, ts, wsa, hn⟩
    cases stop with
    | true => simp at h
    | false =>
      cases list with
      | none =>
        simp [PROCESS_MANAGER.Shutdown, PROCESS_MANAGER.ShutdownAllProcesses,
          PROCESS_MANAGER.ShutdownAllProcessesNoLock, getSlotO]
      | some l =>
        simp [PROCESS_MANAGER.Shutdown, PROCESS_MANAGER.ShutdownAllProcesses,
          PROCESS_MANAGER.ShutdownAllProcessesNoLock, getSlotO,
          shutdownAllWalk_eq_signalWalk, sendShutdownSignalWalk_fst,
          getSlot_replicate]

theorem c8_shutdown_idempotent_witness :
    PROCESS_MANAGER.Shutdown
        (PROCESS_MANAGER.Shutdown (mkReadyState [some ⟨7, true⟩] 0 0 0)).1 =
      ((PROCESS_MANAGER.Shutdown (mkReadyState [some ⟨7, true⟩] 0 0 0)).1, []) ∧
    getSlotO (PROCESS_MANAGER.Shutdown
        (mkReadyState [some ⟨7, true⟩] 0 0 0)).1.m_ppServerProcessList 0 = none :=
  ⟨(c8_shutdown_idempotent (mkReadyState [some ⟨7, true⟩] 0 0 0)).2.1,
   (c8_shutdown_idempotent (mkReadyState [some ⟨7, true⟩] 0 0 0)).2.2 rfl 0⟩

/-! ### C9: ShutdownAllProcesses applies the signal, not the hard stop -/

/-- C9: contrary to the claimed hard-stop/soft-signal distinction,
`ShutdownAllProcesses` performs exactly the same operation as
`SendShutdownSignal` on every state: both walk the slots sending
`SendSignal()`.  On a table holding one worker at port 8080, the trace of
`ShutdownAllProcesses` is the signal and the dereference, with no
`StopProcess` call, and the slot is cleared. -/
theorem c9_shutdown_all_sends_signal :
    (∀ st, PROCESS_MANAGER.ShutdownAllProcesses st =
        PROCESS_MANAGER.SendShutdownSignal st) ∧
    (PROCESS_MANAGER.ShutdownAllProcesses
        (mkReadyState [some ⟨8080, true⟩] 0 0 0)).2 =
      [PMAction.sendSignal 8080, PMAction.dereference 8080] ∧
    PMAction.stopProcess 8080 ∉ (PROCESS_MANAGER.ShutdownAllProcesses
        (mkReadyState [some ⟨8080, true⟩] 0 0 0)).2 ∧
    (PROCESS_MANAGER.ShutdownAllProcesses
        (mkReadyState [some ⟨8080, true⟩] 0 0 0)).1.m_ppServerProcessList =
      some [none] := by
  refine ⟨fun st => ?_, by decide, by decide, by decide⟩
  rcases st with ⟨stop, ready, ppa, cur, list, cnt, ts, wsa, hn⟩
  cases list with
  | none =>
    simp [PROCESS_MANAGER.ShutdownAllProcesses,
      PROCESS_MANAGER.ShutdownAllProcessesNoLock, PROCESS_MANAGER.SendShutdownSignal]
  | some l =>
    simp [PROCESS_MANAGER.ShutdownAllProcesses,
      PROCESS_MANAGER.ShutdownAllProcessesNoLock, PROCESS_MANAGER.SendShutdownSignal,
      shutdownAllWalk_eq_signalWalk]

/-! ### Shape preservation: the slot table is allocated once and never resized -/

theorem line195_fst (st : PMState) (idx : Nat) (tr : List PMAction) :
    (PROCESS_MANAGER.line195 st idx tr).1 = st := by
  unfold PROCESS_MANAGER.line195
  split <;> rfl

theorem shutdownProcessNoLock_shape (st : PMState) (p : SERVER_PROCESS) :
    ((PROCESS_MANAGER.ShutdownProcessNoLock st p).1.serverProcessListReady,
     (PROCESS_MANAGER.ShutdownProcessNoLock st p).1.m_dwProcessesPerApplication,
     slotsLen (PROCESS_MANAGER.ShutdownProcessNoLock st p).1,
     (PROCESS_MANAGER.ShutdownProcessNoLock st p).1.isStopping,
     (PROCESS_MANAGER.ShutdownProcessNoLock st p).1.m_dwRouteToProcessIndex) =
    (st.serverProcessListReady, st.m_dwProcessesPerApplication, slotsLen st,
     st.isStopping, st.m_dwRouteToProcessIndex) := by
  unfold PROCESS_MANAGER.ShutdownProcessNoLock
  cases hl : st.m_ppServerProcessList with
  | none => rfl
  | some l => simp [slotsLen, hl, shutdownProcessWalk_length]

theorem createSection_shape (st : PMState) (cr : CreationOutcome) (idx : Nat)
    (tr : List PMAction) :
    ((PROCESS_MANAGER.createSection st cr idx tr).1.serverProcessListReady,
     (PROCESS_MANAGER.createSection st cr idx tr).1.m_dwProcessesPerApplication,
     slotsLen (PROCESS_MANAGER.createSection st cr idx tr).1,
     (PROCESS_MANAGER.createSection st cr idx tr).1.isStopping,
     (PROCESS_MANAGER.createSection st cr idx tr).1.m_dwRouteToProcessIndex) =
    (st.serverProcessListReady, st.m_dwProcessesPerApplication, slotsLen st,
     st.isStopping, st.m_dwRouteToProcessIndex) := by
  unfold PROCESS_MANAGER.createSection
  split
  · split
    · rfl
    · rfl
    · split
      · simp [line195_fst, slotsLen, setSlot_length]
      · rfl
  · rfl

theorem rapidFailGate_shape (st : PMState) (cfg : REQUESTHANDLER_CONFIG)
    (cr : CreationOutcome) (now : Nat) (idx : Nat) (tr : List PMAction) :
    ((PROCESS_MANAGER.rapidFailGate st cfg cr now idx tr).1.serverProcessListReady,
     (PROCESS_MANAGER.rapidFailGate st cfg cr now idx tr).1.m_dwProcessesPerApplication,
     slotsLen (PROCESS_MANAGER.rapidFailGate st cfg cr now idx tr).1,
     (PROCESS_MANAGER.rapidFailGate st cfg cr now idx tr).1.isStopping,
     (PROCESS_MANAGER.rapidFailGate st cfg cr now idx tr).1.m_dwRouteToProcessIndex) =
    (st.serverProcessListReady, st.m_dwProcessesPerApplication, slotsLen st,
     st.isStopping, st.m_dwRouteToProcessIndex) := by
  unfold PROCESS_MANAGER.rapidFailGate
  dsimp only
  split
  · simp [slotsLen]
  · exact (createSection_shape _ _ _ _).trans (by simp [slotsLen])

theorem exclusiveBlock_shape (st : PMState) (cfg : REQUESTHANDLER_CONFIG)
    (cr : CreationOutcome) (now : Nat) (idx : Nat) :
    ((PROCESS_MANAGER.exclusiveBlock st cfg cr now idx).1.serverProcessListReady,
     (PROCESS_MANAGER.exclusiveBlock st cfg cr now idx).1.m_dwProcessesPerApplication,
     slotsLen (PROCESS_MANAGER.exclusiveBlock st cfg cr now idx).1,
     (PROCESS_MANAGER.exclusiveBlock st cfg cr now idx).1.isStopping,
     (PROCESS_MANAGER.exclusiveBlock st cfg cr now idx).1.m_dwRouteToProcessIndex) =
    (st.serverProcessListReady, st.m_dwProcessesPerApplication, slotsLen st,
     st.isStopping, st.m_dwRouteToProcessIndex) := by
  unfold PROCESS_MANAGER.exclusiveBlock
  split
  · split
    · rfl
    · exact (rapidFailGate_shape _ _ _ _ _ _).trans (shutdownProcessNoLock_shape _ _)
  · exact rapidFailGate_shape _ _ _ _ _ _

theorem getProcess_shape (st : PMState) (cfg : REQUESTHANDLER_CONFIG) (ws : Bool)
    (cr : CreationOutcome) (now : Nat) (h : st.isStopping = false) :
    ((PROCESS_MANAGER.GetProcess st cfg ws cr now).1.serverProcessListReady,
     (PROCESS_MANAGER.GetProcess st cfg ws cr now).1.m_dwProcessesPerApplication,
     slotsLen (PROCESS_MANAGER.GetProcess st cfg ws cr now).1) =
    ((PROCESS_MANAGER.ensureServerProcessList st cfg).serverProcessListReady,
     (PROCESS_MANAGER.ensureServerProcessList st cfg).m_dwProcessesPerApplication,
     slotsLen (PROCESS_MANAGER.ensureServerProcessList st cfg)) := by
  unfold PROCESS_MANAGER.GetProcess
  simp only [h, Bool.false_eq_true, if_false]
  split
  · split
    · simp [slotsLen]
    · split
      · have h2 := exclusiveBlock_shape
          { PROCESS_MANAGER.ensureServerProcessList st cfg with
              m_dwRouteToProcessIndex :=
                (PROCESS_MANAGER.ensureServerProcessList st cfg).m_dwRouteToProcessIndex + 1 }
          cfg cr now
          (slotIndexOf (PROCESS_MANAGER.ensureServerProcessList st cfg).m_dwRouteToProcessIndex
            (PROCESS_MANAGER.ensureServerProcessList st cfg).m_dwProcessesPerApplication)
        simp only [slotsLen] at h2 ⊢
        simp_all
      · simp [line195_fst, slotsLen]
  · split
    · have h2 := exclusiveBlock_shape
        { PROCESS_MANAGER.ensureServerProcessList st cfg with
            m_dwRouteToProcessIndex :=
              (PROCESS_MANAGER.ensureServerProcessList st cfg).m_dwRouteToProcessIndex + 1 }
        cfg cr now
        (slotIndexOf (PROCESS_MANAGER.ensureServerProcessList st cfg).m_dwRouteToProcessIndex
          (PROCESS_MANAGER.ensureServerProcessList st cfg).m_dwProcessesPerApplication)
      simp only [slotsLen] at h2 ⊢
      simp_all
    · simp [line195_fst, slotsLen]

/-- C6: the slot table is allocated once: the first (non-stopping)
`GetProcess` call sizes it from the supplied configuration's
`processesPerApplication`, with every slot empty, and marks it initialized;
once initialized, no call changes the flag, the stored size, or the table
length. -/
theorem c6_single_allocation (st : PMState) (cfg : REQUESTHANDLER_CONFIG)
    (ws : Bool) (cr : CreationOutcome) (now : Nat) :
    (st.serverProcessListReady = false →
      PROCESS_MANAGER.ensureServerProcessList st cfg =
        { st with
            m_dwProcessesPerApplication := cfg.processesPerApplication
            m_ppServerProcessList :=
              some (List.replicate cfg.processesPerApplication none)
            serverProcessListReady := true }) ∧
    (∀ i, getSlot (List.replicate cfg.processesPerApplication none) i = none) ∧
    (st.serverProcessListReady = true →
      PROCESS_MANAGER.ensureServerProcessList st cfg = st) ∧
    (st.isStopping = false → st.serverProcessListReady = false →
      (PROCESS_MANAGER.GetProcess st cfg ws cr now).1.serverProcessListReady = true ∧
      (PROCESS_MANAGER.GetProcess st cfg ws cr now).1.m_dwProcessesPerApplication =
        cfg.processesPerApplication ∧
      slotsLen (PROCESS_MANAGER.GetProcess st cfg ws cr now).1 =
        cfg.processesPerApplication) ∧
    (st.serverProcessListReady = true →
      (PROCESS_MANAGER.GetProcess st cfg ws cr now).1.serverProcessListReady = true ∧
      (PROCESS_MANAGER.GetProcess st cfg ws cr now).1.m_dwProcessesPerApplication =
        st.m_dwProcessesPerApplication ∧
      slotsLen (PROCESS_MANAGER.GetProcess st cfg ws cr now).1 = slotsLen st) := by
  refine ⟨fun h => by simp [PROCESS_MANAGER.ensureServerProcessList, h],
    getSlot_replicate _,
    fun h => by simp [PROCESS_MANAGER.ensureServerProcessList, h],
    fun hs hr => ?_, fun hr => ?_⟩
  · have ht := getProcess_shape st cfg ws cr now hs
    have he : PROCESS_MANAGER.ensureServerProcessList st cfg =
        { st with
            m_dwProcessesPerApplication := cfg.processesPerApplication
            m_ppServerProcessList :=
              some (List.replicate cfg.processesPerApplication none)
            serverProcessListReady := true } := by
      simp [PROCESS_MANAGER.ensureServerProcessList, hr]
    rw [he] at ht
    simp only [slotsLen, Prod.mk.injEq] at ht
    simp only [slotsLen]
    simpa using ht
  · by_cases hs : st.isStopping = true
    · rw [getProcess_stopping st cfg ws cr now hs]
      exact ⟨hr, rfl, rfl⟩
    · have ht := getProcess_shape st cfg ws cr now (by simpa using hs)
      have he : PROCESS_MANAGER.ensureServerProcessList st cfg = st := by
        simp [PROCESS_MANAGER.ensureServerProcessList, hr]
      rw [he] at ht
      simp only [Prod.mk.injEq] at ht
      exact ⟨ht.1.trans hr, ht.2.1, ht.2.2⟩

theorem c6_single_allocation_witness :
    (PROCESS_MANAGER.GetProcess (initialPMState 0) ⟨2, 10⟩ false
        (CreationOutcome.started ⟨1, true⟩) 0).1.serverProcessListReady = true ∧
    (PROCESS_MANAGER.GetProcess (initialPMState 0) ⟨2, 10⟩ false
        (CreationOutcome.started ⟨1, true⟩) 0).1.m_dwProcessesPerApplication = 2 ∧
    slotsLen (PROCESS_MANAGER.GetProcess (initialPMState 0) ⟨2, 10⟩ false
        (CreationOutcome.started ⟨1, true⟩) 0).1 = 2 :=
  (c6_single_allocation (initialPMState 0) ⟨2, 10⟩ false
    (CreationOutcome.started ⟨1, true⟩) 0).2.2.2.1 rfl rfl

/-! ### The rapid-fail counter arithmetic -/

theorem wrap32_eq_self (x : Int) (h1 : -(2 ^ 31) ≤ x) (h2 : x < 2 ^ 31) :
    wrap32 x = x := by
  have p31 : (2 : Int) ^ 31 = 2147483648 := by norm_num
  have p32 : (2 : Int) ^ 32 = 4294967296 := by norm_num
  unfold wrap32
  rw [p31, p32] at *
  rw [Int.emod_eq_of_lt (by omega) (by omega)]
  omega

theorem increment_iterate_count (k : Nat) (st : PMState)
    (h0 : st.m_cRapidFailCount = 0) (hk : (k : Int) < 2 ^ 31) :
    (PROCESS_MANAGER.IncrementRapidFailCount^[k] st).m_cRapidFailCount = (k : Int) := by
  induction k with
  | zero => simpa using h0
  | succ m ih =>
    have p31 : (2 : Int) ^ 31 = 2147483648 := by norm_num
    rw [p31] at hk
    have hm0 : (0 : Int) ≤ (m : Int) := Int.natCast_nonneg m
    have hm1 : ((m + 1 : Nat) : Int) = (m : Int) + 1 := by push_cast; ring
    rw [hm1] at hk
    have hm : (m : Int) < 2 ^ 31 := by rw [p31]; omega
    rw [Function.iterate_succ_apply']
    simp only [PROCESS_MANAGER.IncrementRapidFailCount, ih hm]
    rw [wrap32_eq_self ((m : Int) + 1) (by rw [p31]; omega) (by rw [p31]; omega)]
    push_cast
    ring

/-! ### GetProcess on an empty round-robin slot reduces to the rapid-fail gate -/

theorem getProcess_empty_slot (st : PMState) (cfg : REQUESTHANDLER_CONFIG)
    (ws : Bool) (cr : CreationOutcome) (now : Nat)
    (l : List (Option SERVER_PROCESS))
    (hstop : st.isStopping = false) (hready : st.serverProcessListReady = true)
    (hlist : st.m_ppServerProcessList = some l)
    (hslot : getSlot l
      (slotIndexOf st.m_dwRouteToProcessIndex st.m_dwProcessesPerApplication) = none) :
    PROCESS_MANAGER.GetProcess st cfg ws cr now =
      PROCESS_MANAGER.rapidFailGate
        { st with m_dwRouteToProcessIndex := st.m_dwRouteToProcessIndex + 1 }
        cfg cr now
        (slotIndexOf st.m_dwRouteToProcessIndex st.m_dwProcessesPerApplication) [] := by
  have hens : PROCESS_MANAGER.ensureServerProcessList st cfg = st := by
    simp [PROCESS_MANAGER.ensureServerProcessList, hready]
  unfold PROCESS_MANAGER.GetProcess
  simp only [hstop, Bool.false_eq_true, if_false, hens]
  simp only [PROCESS_MANAGER.slotMissingOrNotReady, PROCESS_MANAGER.exclusiveBlock,
    getSlotO, hlist, hslot, if_true]

/-- C2: `RapidFailsPerMinuteExceeded` lazily rolls the 60-second window
forward (resetting count and window start) and returns true iff the
(possibly reset) count strictly exceeds the limit; consequently, with
`rapidFailsPerMinute = R` and `R + 1` recorded failures, a creation attempt
within the window logs the diagnostic event and fails with "server disabled"
without touching the slot table, while an attempt after the window elapses
resets the counter and is allowed to create (and install) a new worker. -/
theorem c2_rapid_fail_circuit (st : PMState) (cfg : REQUESTHANDLER_CONFIG)
    (ws : Bool) (q : SERVER_PROCESS) (now : Nat) (R : Nat)
    (l : List (Option SERVER_PROCESS))
    (hstop : st.isStopping = false) (hready : st.serverProcessListReady = true)
    (hlist : st.m_ppServerProcessList = some l)
    (hlen : l.length = st.m_dwProcessesPerApplication)
    (hppa : 0 < st.m_dwProcessesPerApplication)
    (hslot : getSlot l
      (slotIndexOf st.m_dwRouteToProcessIndex st.m_dwProcessesPerApplication) = none)
    (hR : cfg.rapidFailsPerMinute = (R : Int))
    (hcount : st.m_cRapidFailCount = (R : Int) + 1)
    (hq : q.ready = true) :
    (∀ c ts lim n, ONE_MINUTE_IN_MILLISECONDS ≤ sub64 n ts →
        PROCESS_MANAGER.RapidFailsPerMinuteExceeded c ts lim n =
          (decide ((0 : Int) > lim), 0, n)) ∧
    (∀ c ts lim n, sub64 n ts < ONE_MINUTE_IN_MILLISECONDS →
        PROCESS_MANAGER.RapidFailsPerMinuteExceeded c ts lim n =
          (decide (c > lim), c, ts)) ∧
    (∀ st0 : PMState, st0.m_cRapidFailCount = 0 → ((R : Int) + 1 < 2 ^ 31) →
        (PROCESS_MANAGER.IncrementRapidFailCount^[R + 1] st0).m_cRapidFailCount =
          (R : Int) + 1) ∧
    (sub64 now st.m_rapidFailTickStart < ONE_MINUTE_IN_MILLISECONDS →
        (PROCESS_MANAGER.GetProcess st cfg ws (.started q) now).2.1 =
            GPResult.serverDisabled ∧
        (PROCESS_MANAGER.GetProcess st cfg ws (.started q) now).2.2 =
            [PMAction.eventRapidFailExceeded cfg.rapidFailsPerMinute] ∧
        (PROCESS_MANAGER.GetProcess st cfg ws (.started q) now).1.m_ppServerProcessList =
            some l) ∧
    (ONE_MINUTE_IN_MILLISECONDS ≤ sub64 now st.m_rapidFailTickStart →
        (PROCESS_MANAGER.GetProcess st cfg ws (.started q) now).2.1 = GPResult.ok q ∧
        (PROCESS_MANAGER.GetProcess st cfg ws (.started q) now).1.m_cRapidFailCount = 0 ∧
        (PROCESS_MANAGER.GetProcess st cfg ws (.started q) now).1.m_rapidFailTickStart = now ∧
        getSlotO (PROCESS_MANAGER.GetProcess st cfg ws (.started q) now).1.m_ppServerProcessList
          (slotIndexOf st.m_dwRouteToProcessIndex st.m_dwProcessesPerApplication) =
            some q) := by
  refine ⟨fun c ts lim n h => by
      unfold PROCESS_MANAGER.RapidFailsPerMinuteExceeded
      rw [if_pos h],
    fun c ts lim n h => by
      unfold PROCESS_MANAGER.RapidFailsPerMinuteExceeded
      rw [if_neg (by omega)],
    fun st0 h0 hlt => increment_iterate_count (R + 1) st0 h0 (by push_cast; push_cast at hlt; omega),
    fun hwin => ?_, fun helap => ?_⟩
  · have hcheck : PROCESS_MANAGER.RapidFailsPerMinuteExceeded st.m_cRapidFailCount
        st.m_rapidFailTickStart cfg.rapidFailsPerMinute now =
        (true, st.m_cRapidFailCount, st.m_rapidFailTickStart) := by
      unfold PROCESS_MANAGER.RapidFailsPerMinuteExceeded
      rw [if_neg (by omega), hcount, hR]
      have hgt : ((R : Int) < (R : Int) + 1) := by omega
      simp [hgt]
    rw [getProcess_empty_slot st cfg ws (.started q) now l hstop hready hlist hslot]
    unfold PROCESS_MANAGER.rapidFailGate
    dsimp only
    rw [hcheck]
    simp [hlist]
  · have hcheck : PROCESS_MANAGER.RapidFailsPerMinuteExceeded st.m_cRapidFailCount
        st.m_rapidFailTickStart cfg.rapidFailsPerMinute now = (false, 0, now) := by
      unfold PROCESS_MANAGER.RapidFailsPerMinuteExceeded
      rw [if_pos helap, hR]
      have hge : ¬ ((0 : Int) > (R : Int)) := by omega
      simp [hge]
    rw [getProcess_empty_slot st cfg ws (.started q) now l hstop hready hlist hslot]
    unfold PROCESS_MANAGER.rapidFailGate
    dsimp only
    rw [hcheck]
    have hidx : slotIndexOf st.m_dwRouteToProcessIndex st.m_dwProcessesPerApplication <
        l.length := by
      rw [hlen]
      exact Nat.mod_lt _ hppa
    unfold PROCESS_MANAGER.createSection
    simp only [getSlotO, hlist, hslot, hq, if_true, Bool.false_eq_true, if_false,
      Option.getD_some]
    unfold PROCESS_MANAGER.line195
    simp [getSlotO, getSlot_setSlot_self l _ _ hidx]

theorem c2_rapid_fail_circuit_witness :
    (PROCESS_MANAGER.GetProcess (mkReadyState [none] 0 1 500) ⟨1, 0⟩ false
        (.started ⟨9, true⟩) 1000).2.1 = GPResult.serverDisabled ∧
    (PROCESS_MANAGER.GetProcess (mkReadyState [none] 0 1 500) ⟨1, 0⟩ false
        (.started ⟨9, true⟩) 61000).2.1 = GPResult.ok ⟨9, true⟩ :=
  ⟨((c2_rapid_fail_circuit (mkReadyState [none] 0 1 500) ⟨1, 0⟩ false ⟨9, true⟩ 1000 0
      [none] rfl rfl rfl rfl (by decide) rfl rfl (by decide) rfl).2.2.2.1
      (by decide)).1,
   ((c2_rapid_fail_circuit (mkReadyState [none] 0 1 500) ⟨1, 0⟩ false ⟨9, true⟩ 61000 0
      [none] rfl rfl rfl rfl (by decide) rfl rfl (by decide) rfl).2.2.2.2
      (by decide)).1⟩

/-! ### GetProcess on a not-ready round-robin slot -/

theorem getProcess_notready_slot (st : PMState) (cfg : REQUESTHANDLER_CONFIG)
    (ws : Bool) (cr : CreationOutcome) (now : Nat)
    (l : List (Option SERVER_PROCESS)) (p : SERVER_PROCESS)
    (hstop : st.isStopping = false) (hready : st.serverProcessListReady = true)
    (hlist : st.m_ppServerProcessList = some l)
    (hslot : getSlot l
      (slotIndexOf st.m_dwRouteToProcessIndex st.m_dwProcessesPerApplication) = some p)
    (hnr : p.ready = false) :
    PROCESS_MANAGER.GetProcess st cfg ws cr now =
      PROCESS_MANAGER.rapidFailGate
        { st with
            m_dwRouteToProcessIndex := st.m_dwRouteToProcessIndex + 1
            m_ppServerProcessList :=
              some (PROCESS_MANAGER.shutdownProcessWalk p.port l).1 }
        cfg cr now
        (slotIndexOf st.m_dwRouteToProcessIndex st.m_dwProcessesPerApplication)
        (PROCESS_MANAGER.shutdownProcessWalk p.port l).2 := by
  have hens : PROCESS_MANAGER.ensureServerProcessList st cfg = st := by
    simp [PROCESS_MANAGER.ensureServerProcessList, hready]
  unfold PROCESS_MANAGER.GetProcess
  simp only [hstop, Bool.false_eq_true, if_false, hens]
  simp only [PROCESS_MANAGER.slotMissingOrNotReady, PROCESS_MANAGER.exclusiveBlock,
    PROCESS_MANAGER.ShutdownProcessNoLock, getSlotO, hlist, hslot, hnr,
    Bool.not_false, if_true, Bool.false_eq_true, if_false]

/-- C1 (amended): when the round-robin slot holds a not-ready worker,
`GetProcess` always stops and releases it first; then, provided the
rapid-fail gate does not trip and the freshly created worker starts and
reports ready, the replacement is installed at the same slot index and
returned.  (The unamended claim omits the gate and creation-failure cases.) -/
theorem c1_notready_replacement (st : PMState) (cfg : REQUESTHANDLER_CONFIG)
    (ws : Bool) (now : Nat) (l : List (Option SERVER_PROCESS))
    (p q : SERVER_PROCESS)
    (hstop : st.isStopping = false) (hready : st.serverProcessListReady = true)
    (hlist : st.m_ppServerProcessList = some l)
    (hlen : l.length = st.m_dwProcessesPerApplication)
    (hppa : 0 < st.m_dwProcessesPerApplication)
    (hslot : getSlot l
      (slotIndexOf st.m_dwRouteToProcessIndex st.m_dwProcessesPerApplication) = some p)
    (hnr : p.ready = false)
    (hgate : (PROCESS_MANAGER.RapidFailsPerMinuteExceeded st.m_cRapidFailCount
      st.m_rapidFailTickStart cfg.rapidFailsPerMinute now).1 = false)
    (hq : q.ready = true) :
    (PROCESS_MANAGER.GetProcess st cfg ws (.started q) now).2.1 = GPResult.ok q ∧
    PMAction.stopProcess p.port ∈
      (PROCESS_MANAGER.GetProcess st cfg ws (.started q) now).2.2 ∧
    PMAction.dereference p.port ∈
      (PROCESS_MANAGER.GetProcess st cfg ws (.started q) now).2.2 ∧
    getSlotO (PROCESS_MANAGER.GetProcess st cfg ws (.started q) now).1.m_ppServerProcessList
      (slotIndexOf st.m_dwRouteToProcessIndex st.m_dwProcessesPerApplication) = some q ∧
    (PROCESS_MANAGER.GetProcess st cfg ws (.started q) now).1.m_dwRouteToProcessIndex =
      st.m_dwRouteToProcessIndex + 1 := by
  have hidx : slotIndexOf st.m_dwRouteToProcessIndex st.m_dwProcessesPerApplication <
      l.length := by
    rw [hlen]
    exact Nat.mod_lt _ hppa
  have hwlen : (PROCESS_MANAGER.shutdownProcessWalk p.port l).1.length = l.length :=
    shutdownProcessWalk_length p.port l
  have hwslot : getSlot (PROCESS_MANAGER.shutdownProcessWalk p.port l).1
      (slotIndexOf st.m_dwRouteToProcessIndex st.m_dwProcessesPerApplication) = none := by
    rw [getSlot_shutdownProcessWalk, hslot]
    simp [slotMatchesPort]
  have hmem := shutdownProcessWalk_trace_mem p.port l
    (slotIndexOf st.m_dwRouteToProcessIndex st.m_dwProcessesPerApplication) p hslot rfl
  rw [getProcess_notready_slot st cfg ws (.started q) now l p hstop hready hlist hslot hnr]
  unfold PROCESS_MANAGER.rapidFailGate
  dsimp only
  rw [hgate]
  simp only [Bool.false_eq_true, if_false]
  unfold PROCESS_MANAGER.createSection
  simp only [getSlotO, hwslot, hq, if_true, Option.getD_some]
  unfold PROCESS_MANAGER.line195
  simp [getSlotO, getSlot_setSlot_self _ _ _ (hwlen ▸ hidx), hmem.1, hmem.2]

/-- C1 counterexample: with the rapid-fail threshold already exceeded
(limit 0, one recorded failure, still inside the window), a `GetProcess`
call whose slot holds a not-ready worker stops that worker but installs no
replacement: it fails with "server disabled" and leaves the slot empty,
contradicting the claim that every such call installs and returns a
replacement. -/
theorem c1_notready_counterexample :
    (PROCESS_MANAGER.GetProcess (mkReadyState [some ⟨5, false⟩] 0 1 500) ⟨1, 0⟩ false
        (.started ⟨6, true⟩) 1000).2.1 = GPResult.serverDisabled ∧
    getSlotO (PROCESS_MANAGER.GetProcess (mkReadyState [some ⟨5, false⟩] 0 1 500)
        ⟨1, 0⟩ false (.started ⟨6, true⟩) 1000).1.m_ppServerProcessList 0 = none := by
  decide

theorem c1_notready_replacement_witness :
    (PROCESS_MANAGER.GetProcess (mkReadyState [some ⟨5, false⟩] 0 0 500) ⟨1, 0⟩ false
        (.started ⟨6, true⟩) 1000).2.1 = GPResult.ok ⟨6, true⟩ ∧
    PMAction.stopProcess 5 ∈
      (PROCESS_MANAGER.GetProcess (mkReadyState [some ⟨5, false⟩] 0 0 500) ⟨1, 0⟩ false
        (.started ⟨6, true⟩) 1000).2.2 ∧
    getSlotO (PROCESS_MANAGER.GetProcess (mkReadyState [some ⟨5, false⟩] 0 0 500)
        ⟨1, 0⟩ false (.started ⟨6, true⟩) 1000).1.m_ppServerProcessList 0 =
      some ⟨6, true⟩ := by
  have h := c1_notready_replacement (mkReadyState [some ⟨5, false⟩] 0 0 500) ⟨1, 0⟩
    false 1000 [some ⟨5, false⟩] ⟨5, false⟩ ⟨6, true⟩ rfl rfl rfl rfl (by decide)
    rfl rfl (by decide) rfl
  exact ⟨h.1, h.2.1, h.2.2.2.1⟩

/-! ### GetProcess on a ready round-robin slot (the fast path) -/

theorem getProcess_ready_slot (st : PMState) (cfg : REQUESTHANDLER_CONFIG)
    (ws : Bool) (cr : CreationOutcome) (now : Nat)
    (l : List (Option SERVER_PROCESS)) (p : SERVER_PROCESS)
    (hstop : st.isStopping = false) (hready : st.serverProcessListReady = true)
    (hlist : st.m_ppServerProcessList = some l)
    (hslot : getSlot l
      (slotIndexOf st.m_dwRouteToProcessIndex st.m_dwProcessesPerApplication) = some p)
    (hp : p.ready = true) :
    PROCESS_MANAGER.GetProcess st cfg ws cr now =
      ({ st with m_dwRouteToProcessIndex := st.m_dwRouteToProcessIndex + 1 },
        GPResult.ok p, []) := by
  have hens : PROCESS_MANAGER.ensureServerProcessList st cfg = st := by
    simp [PROCESS_MANAGER.ensureServerProcessList, hready]
  unfold PROCESS_MANAGER.GetProcess
  simp only [hstop, Bool.false_eq_true, if_false, hens]
  simp only [getSlotO, hlist, hslot, hp, if_true]

theorem gpStep_allready_iterate (i : GPInput) (st : PMState)
    (l : List (Option SERVER_PROCESS))
    (hstop : st.isStopping = false) (hready : st.serverProcessListReady = true)
    (hlist : st.m_ppServerProcessList = some l)
    (hlen : l.length = st.m_dwProcessesPerApplication)
    (hppa : 0 < st.m_dwProcessesPerApplication)
    (hall : allSlotsReady l = true) (k : Nat) :
    (gpStep i)^[k] st =
      { st with m_dwRouteToProcessIndex := st.m_dwRouteToProcessIndex + k } := by
  induction k with
  | zero => simp
  | succ m ih =>
    rw [Function.iterate_succ_apply', ih]
    have hidx : slotIndexOf (st.m_dwRouteToProcessIndex + m)
        st.m_dwProcessesPerApplication < l.length := by
      rw [hlen]
      exact Nat.mod_lt _ hppa
    obtain ⟨p, hp, hpr⟩ := allSlotsReady_getSlot l hall _ hidx
    unfold gpStep
    rw [show PROCESS_MANAGER.GetProcess
        { st with m_dwRouteToProcessIndex := st.m_dwRouteToProcessIndex + m }
        i.pConfig i.fWebsocketSupported i.creation i.now =
        ({ st with m_dwRouteToProcessIndex := st.m_dwRouteToProcessIndex + m + 1 },
          GPResult.ok p, []) from
      getProcess_ready_slot _ _ _ _ _ l p hstop hready hlist hp hpr]
    rfl

/-- C4 (amended): starting from a fresh cursor, with every slot holding a
ready worker, the first `2^32` sequential `GetProcess` calls increment the
cursor by exactly one per call and visit slot `k mod K` on call `k`
(returning the worker stored there).  Past `2^32` calls the 32-bit cursor
wraps to 0, which breaks the cyclic order unless `K` divides `2^32`. -/
theorem c4_round_robin_first_wrap (i : GPInput) (st : PMState)
    (l : List (Option SERVER_PROCESS))
    (hstop : st.isStopping = false) (hready : st.serverProcessListReady = true)
    (hlist : st.m_ppServerProcessList = some l)
    (hlen : l.length = st.m_dwProcessesPerApplication)
    (hppa : 0 < st.m_dwProcessesPerApplication)
    (hall : allSlotsReady l = true)
    (hcur : st.m_dwRouteToProcessIndex = 0)
    (k : Nat) (hk : k < UINT32_MOD) :
    ((gpStep i)^[k] st).m_dwRouteToProcessIndex = k ∧
    ((gpStep i)^[k + 1] st).m_dwRouteToProcessIndex = k + 1 ∧
    slotIndexOf k st.m_dwProcessesPerApplication =
      k % st.m_dwProcessesPerApplication ∧
    (∃ p, getSlot l (k % st.m_dwProcessesPerApplication) = some p ∧
      (PROCESS_MANAGER.GetProcess ((gpStep i)^[k] st) i.pConfig i.fWebsocketSupported
        i.creation i.now).2.1 = GPResult.ok p) := by
  have hiter := gpStep_allready_iterate i st l hstop hready hlist hlen hppa hall
  have hidxeq : slotIndexOf k st.m_dwProcessesPerApplication =
      k % st.m_dwProcessesPerApplication := by
    unfold slotIndexOf
    rw [Nat.mod_eq_of_lt hk]
  have hklt : k % st.m_dwProcessesPerApplication < l.length := by
    rw [hlen]
    exact Nat.mod_lt _ hppa
  obtain ⟨p, hp, hpr⟩ := allSlotsReady_getSlot l hall _ hklt
  refine ⟨by rw [hiter k, hcur]; exact Nat.zero_add k,
    by rw [hiter (k + 1), hcur]; exact Nat.zero_add (k + 1), hidxeq, p, hp, ?_⟩
  have hslot' : getSlot l (slotIndexOf (st.m_dwRouteToProcessIndex + k)
      st.m_dwProcessesPerApplication) = some p := by
    rw [hcur, Nat.zero_add, hidxeq]
    exact hp
  rw [hiter k]
  rw [show PROCESS_MANAGER.GetProcess
      { st with m_dwRouteToProcessIndex := st.m_dwRouteToProcessIndex + k }
      i.pConfig i.fWebsocketSupported i.creation i.now =
      ({ st with m_dwRouteToProcessIndex := st.m_dwRouteToProcessIndex + k + 1 },
        GPResult.ok p, []) from
    getProcess_ready_slot _ _ _ _ _ l p hstop hready hlist hslot' hpr]

/-- C4 counterexample: with three ready slots and the cursor at the 32-bit
wrap boundary, two consecutive `GetProcess` calls both visit slot 0 (both
return the worker at port 1): the call whose cursor count is `2^32` computes
slot index 0, while the claimed unbounded cyclic order (`index = cursor mod
K`) demands `2^32 mod 3 = 1`, i.e. the worker at port 2. -/
theorem c4_round_robin_counterexample :
    (PROCESS_MANAGER.GetProcess
        (mkReadyState [some ⟨1, true⟩, some ⟨2, true⟩, some ⟨3, true⟩]
          (UINT32_MOD - 1) 0 0) ⟨3, 10⟩ false (.started ⟨4, true⟩) 0).2.1 =
      GPResult.ok ⟨1, true⟩ ∧
    (PROCESS_MANAGER.GetProcess
        (PROCESS_MANAGER.GetProcess
          (mkReadyState [some ⟨1, true⟩, some ⟨2, true⟩, some ⟨3, true⟩]
            (UINT32_MOD - 1) 0 0) ⟨3, 10⟩ false (.started ⟨4, true⟩) 0).1
        ⟨3, 10⟩ false (.started ⟨4, true⟩) 0).2.1 =
      GPResult.ok ⟨1, true⟩ ∧
    slotIndexOf UINT32_MOD 3 = 0 ∧
    UINT32_MOD % 3 = 1 := by
  decide

theorem c4_round_robin_first_wrap_witness :
    ((gpStep ⟨⟨2, 10⟩, false, .started ⟨9, true⟩, 0⟩)^[3]
      (mkReadyState [some ⟨1, true⟩, some ⟨2, true⟩] 0 0 0)).m_dwRouteToProcessIndex = 3 ∧
    (∃ p, getSlot [some ⟨1, true⟩, some ⟨2, true⟩] (3 % 2) = some p ∧
      (PROCESS_MANAGER.GetProcess
        ((gpStep ⟨⟨2, 10⟩, false, .started ⟨9, true⟩, 0⟩)^[3]
          (mkReadyState [some ⟨1, true⟩, some ⟨2, true⟩] 0 0 0))
        ⟨2, 10⟩ false (.started ⟨9, true⟩) 0).2.1 = GPResult.ok p) := by
  have h := c4_round_robin_first_wrap ⟨⟨2, 10⟩, false, .started ⟨9, true⟩, 0⟩
    (mkReadyState [some ⟨1, true⟩, some ⟨2, true⟩] 0 0 0)
    [some ⟨1, true⟩, some ⟨2, true⟩] rfl rfl rfl rfl (by decide) (by decide) rfl
    3 (by decide)
  exact ⟨h.1, h.2.2.2⟩

/-! ### Initialize: the NUL sink is opened at most once -/

theorem initialize_hNUL_not_null (st : PMState) (w : Int) (c : Bool) (n : Nat)
    (h : st.m_hNULHandle ≠ HandleState.null) :
    (PROCESS_MANAGER.Initialize st w c n).2.1 = false ∧
    (PROCESS_MANAGER.Initialize st w c n).1.m_hNULHandle = st.m_hNULHandle := by
  unfold PROCESS_MANAGER.Initialize PROCESS_MANAGER.InitializeTail
  by_cases hw : st.isWSAStartupDone = true
  · simp [hw, h]
  · by_cases hz : w = 0
    · simp [hw, hz, h]
    · simp [hw, hz]

theorem initialize_attempt_not_null (st : PMState) (w : Int) (c : Bool) (n : Nat)
    (h : (PROCESS_MANAGER.Initialize st w c n).2.1 = true) :
    (PROCESS_MANAGER.Initialize st w c n).1.m_hNULHandle ≠ HandleState.null := by
  unfold PROCESS_MANAGER.Initialize PROCESS_MANAGER.InitializeTail at h ⊢
  by_cases hw : st.isWSAStartupDone = true
  · by_cases hn : st.m_hNULHandle = HandleState.null
    · cases c <;> simp [hw, hn] at h ⊢
    · simp [hw, hn] at h
  · by_cases hz : w = 0
    · by_cases hn : st.m_hNULHandle = HandleState.null
      · cases c <;> simp [hw, hz, hn] at h ⊢
      · simp [hw, hz, hn] at h
    · simp [hw, hz] at h

theorem initializeRun_no_attempts (st : PMState)
    (inputs : List (Int × Bool × Nat)) (h : st.m_hNULHandle ≠ HandleState.null) :
    (InitializeRun st inputs).2 = 0 := by
  induction inputs generalizing st with
  | nil => rfl
  | cons x rest ih =>
    obtain ⟨w, c, n⟩ := x
    have h1 := initialize_hNUL_not_null st w c n h
    simp only [InitializeRun, h1.1, if_false, Bool.false_eq_true]
    rw [ih _ (h1.2 ▸ h)]

theorem initializeRun_le_one (st : PMState) (inputs : List (Int × Bool × Nat)) :
    (InitializeRun st inputs).2 ≤ 1 := by
  induction inputs generalizing st with
  | nil => exact Nat.zero_le 1
  | cons x rest ih =>
    obtain ⟨w, c, n⟩ := x
    by_cases ha : (PROCESS_MANAGER.Initialize st w c n).2.1 = true
    · have hrest := initializeRun_no_attempts (PROCESS_MANAGER.Initialize st w c n).1
        rest (initialize_attempt_not_null st w c n ha)
      simp only [InitializeRun, ha, if_true]
      omega
    · have ha' : (PROCESS_MANAGER.Initialize st w c n).2.1 = false := by
        simpa using ha
      have hrest := ih (PROCESS_MANAGER.Initialize st w c n).1
      simp only [InitializeRun, ha', Bool.false_eq_true, if_false]
      omega

theorem initialize_error_iff (st : PMState) (w : Int) (c : Bool) (n : Nat) :
    ((PROCESS_MANAGER.Initialize st w c n).2.2 ≠ PROCESS_MANAGER.InitResult.ok) ↔
      ((st.isWSAStartupDone = false ∧ w ≠ 0) ∨
       ((PROCESS_MANAGER.Initialize st w c n).2.1 = true ∧ c = false)) := by
  unfold PROCESS_MANAGER.Initialize PROCESS_MANAGER.InitializeTail
  by_cases hw : st.isWSAStartupDone = true
  · by_cases hn : st.m_hNULHandle = HandleState.null
    · cases c <;> simp [hw, hn]
    · simp [hw, hn]
  · have hw' : st.isWSAStartupDone = false := by simpa using hw
    by_cases hz : w = 0
    · by_cases hn : st.m_hNULHandle = HandleState.null
      · cases c <;> simp [hw', hz, hn]
      · simp [hw', hz, hn]
    · simp [hw', hz]

theorem initialize_tick_reset (st : PMState) (w : Int) (c : Bool) (n : Nat)
    (h : st.isWSAStartupDone = true ∨ w = 0) :
    (PROCESS_MANAGER.Initialize st w c n).1.m_rapidFailTickStart = n := by
  unfold PROCESS_MANAGER.Initialize PROCESS_MANAGER.InitializeTail
  rcases h with hw | hz
  · by_cases hn : st.m_hNULHandle = HandleState.null
    · cases c <;> simp [hw, hn]
    · simp [hw, hn]
  · by_cases hw : st.isWSAStartupDone = true
    · by_cases hn : st.m_hNULHandle = HandleState.null
      · cases c <;> simp [hw, hn]
      · simp [hw, hn]
    · by_cases hn : st.m_hNULHandle = HandleState.null
      · cases c <;> simp [hw, hz, hn]
      · simp [hw, hz, hn]

/-- C10: across any sequence of `Initialize` calls the NUL discard sink is
opened (a `CreateFileW` call is made) at most once, even when an attempt
failed — the handle field is then `INVALID_HANDLE_VALUE`, not null, so the
guard never retries; a call returns an error exactly when the `WSAStartup`
step fails or the call's own open attempt fails; and every call that gets
past the subsystem startup resets the rapid-fail window start to the
current tick count. -/
theorem c10_initialize_once (st : PMState) (w : Int) (c : Bool) (n : Nat)
    (inputs : List (Int × Bool × Nat)) :
    (InitializeRun st inputs).2 ≤ 1 ∧
    (((PROCESS_MANAGER.Initialize st w c n).2.2 ≠ PROCESS_MANAGER.InitResult.ok) ↔
      ((st.isWSAStartupDone = false ∧ w ≠ 0) ∨
       ((PROCESS_MANAGER.Initialize st w c n).2.1 = true ∧ c = false))) ∧
    (st.isWSAStartupDone = true ∨ w = 0 →
      (PROCESS_MANAGER.Initialize st w c n).1.m_rapidFailTickStart = n) :=
  ⟨initializeRun_le_one st inputs, initialize_error_iff st w c n,
   initialize_tick_reset st w c n⟩

theorem c10_initialize_once_witness :
    (InitializeRun (initialPMState 0) [(0, false, 5), (0, true, 6), (0, true, 7)]).2 ≤ 1 ∧
    (PROCESS_MANAGER.Initialize (initialPMState 0) 0 true 7).1.m_rapidFailTickStart = 7 :=
  ⟨(c10_initialize_once (initialPMState 0) 0 true 7
      [(0, false, 5), (0, true, 6), (0, true, 7)]).1,
   (c10_initialize_once (initialPMState 0) 0 true 7
      [(0, false, 5), (0, true, 6), (0, true, 7)]).2.2 (Or.inr rfl)⟩
